import Mathlib

/-!
Shallow embedding of the `twilight-error` crate (`src/lib.rs`): a last-resort
error reporter that fans an error message out to an optional chat channel, an
optional webhook and an optional append-only file, and always writes the final
message buffer to stderr.

Modelling choices:
* Snowflake identifiers (`Id<ChannelMarker>`, `Id<WebhookMarker>`) are `Nat`.
* The error value (`impl Display`) is its rendered description, a `String`.
* The twilight HTTP `Client` and the filesystem are external collaborators;
  they are modelled as oracles: content validation (`.content(...)` returning
  `Result`) is a boolean predicate on the content string, and a delivery /
  IO attempt returns `none` on success or `some err` with the displayed error.
* The `&mut String` message buffer is explicit state passing (buffer in,
  buffer out); the `&self` receiver is threaded through `ReportState`.
* Every externally visible action is recorded in an `Event` trace, in the
  order the code performs it.
* The `unwrap` panic on invalid fallback content is `Except.error ()`.
-/

namespace TwilightError

/-- Identifier of a chat channel (`Id<ChannelMarker>`). -/
abbrev ChannelId := Nat

/-- Identifier of a webhook (`Id<WebhookMarker>`). -/
abbrev WebhookId := Nat

/-- The fixed fallback content, `DEFAULT_ERROR_MESSAGE` in `src/lib.rs`. -/
def DEFAULT_ERROR_MESSAGE : String :=
  "An error occurred, check the `stderr` for more info"

/-- Oracle for the twilight HTTP `Client` collaborator.
`validMessageContent` / `validWebhookContent` model the `Result` returned by
`.content(...)` (content validation, e.g. the length limit); `sendMessage` /
`sendWebhook` model `.exec().await`, returning `none` on success and
`some err` (the displayed error) on a delivery failure. -/
structure Client where
  validMessageContent : String → Bool
  validWebhookContent : String → Bool
  sendMessage : ChannelId → String → Option String
  sendWebhook : WebhookId → String → String → Option String

/-- Oracle for the filesystem collaborator: `append path bytes` models
`OpenOptions::new().append(true).create(true).open(path)` followed by
`write_all`; `none` on success, `some err` (the displayed IO error) on
failure of the open-or-write. -/
structure Fs where
  append : String → String → Option String

/-- The main struct to handle errors (`ErrorHandler` in `src/lib.rs`). -/
structure ErrorHandler where
  channel : Option ChannelId
  webhook : Option (WebhookId × String)
  file : Option String
deriving DecidableEq

/-- One externally visible action of a dispatch, in program order:
the argument of a `.content(...)` validation attempt, an executed request
with its final content, the bytes handed to the file append attempt, or the
line printed to stderr. -/
inductive Event where
  | contentMessage (content : String)
  | execMessage (channel : ChannelId) (content : String)
  | contentWebhook (content : String)
  | execWebhook (webhook : WebhookId) (token : String) (content : String)
  | fileWrite (path : String) (bytes : String)
  | stderrLine (text : String)
deriving DecidableEq

/-- Decidable equality for `Except`, so that concrete dispatch outcomes can
be compared by `decide`. -/
instance exceptDecEq {α β : Type} [DecidableEq α] [DecidableEq β] :
    DecidableEq (Except α β) := fun a b =>
  match a, b with
  | .error x, .error y =>
    if h : x = y then .isTrue (h ▸ rfl)
    else .isFalse fun hh => h (by cases hh; rfl)
  | .ok x, .ok y =>
    if h : x = y then .isTrue (h ▸ rfl)
    else .isFalse fun hh => h (by cases hh; rfl)
  | .error _, .ok _ => .isFalse fun hh => by cases hh
  | .ok _, .error _ => .isFalse fun hh => by cases hh

/-- Whether an event belongs to the channel sink. -/
def Event.isChannelEvent : Event → Bool
  | .contentMessage _ => true
  | .execMessage _ _ => true
  | _ => false

/-- Whether an event belongs to the webhook sink. -/
def Event.isWebhookEvent : Event → Bool
  | .contentWebhook _ => true
  | .execWebhook _ _ _ => true
  | _ => false

/-- Whether an event belongs to the file sink. -/
def Event.isFileEvent : Event → Bool
  | .fileWrite _ _ => true
  | _ => false

/-- Whether an event is the stderr print. -/
def Event.isStderrEvent : Event → Bool
  | .stderrLine _ => true
  | _ => false

/-- `ErrorHandler::new`: a handler that only prints errors to stderr. -/
def ErrorHandler.new : ErrorHandler :=
  { channel := none, webhook := none, file := none }

/-- `ErrorHandler::channel`: set the handler to create a message in the given
channel on errors. Returning `&mut Self` is modelled by returning the updated
handler, which supports the same chained configuration. -/
def ErrorHandler.setChannel (self : ErrorHandler) (channel_id : ChannelId) :
    ErrorHandler :=
  { self with channel := some channel_id }

/-- `ErrorHandler::webhook`: set the handler to execute the given webhook on
errors. -/
def ErrorHandler.setWebhook (self : ErrorHandler) (webhook_id : WebhookId)
    (token : String) : ErrorHandler :=
  { self with webhook := some (webhook_id, token) }

/-- `ErrorHandler::file`: set the file to append to on error. -/
def ErrorHandler.setFile (self : ErrorHandler) (path : String) : ErrorHandler :=
  { self with file := some path }

/-- `ErrorHandler::maybe_create_message`: if a channel is set, build the
request with the buffer as content; if validation rejects it, rebuild once
with `DEFAULT_ERROR_MESSAGE` (`unwrap_or_else`), whose own validation failure
is the `unwrap` panic (`Except.error ()`); execute the request and on a
delivery error append `"\n\nFailed to create message: <err>"` to the buffer.
Returns the new buffer and the trace of actions. -/
def ErrorHandler.maybe_create_message (self : ErrorHandler) (http : Client)
    (error_message : String) : Except Unit (String × List Event) :=
  match self.channel with
  | none => .ok (error_message, [])
  | some channel_id =>
    if http.validMessageContent error_message then
      match http.sendMessage channel_id error_message with
      | none =>
        .ok (error_message,
          [.contentMessage error_message, .execMessage channel_id error_message])
      | some err =>
        .ok (error_message ++ "\n\nFailed to create message: " ++ err,
          [.contentMessage error_message, .execMessage channel_id error_message])
    else if http.validMessageContent DEFAULT_ERROR_MESSAGE then
      match http.sendMessage channel_id DEFAULT_ERROR_MESSAGE with
      | none =>
        .ok (error_message,
          [.contentMessage error_message, .contentMessage DEFAULT_ERROR_MESSAGE,
            .execMessage channel_id DEFAULT_ERROR_MESSAGE])
      | some err =>
        .ok (error_message ++ "\n\nFailed to create message: " ++ err,
          [.contentMessage error_message, .contentMessage DEFAULT_ERROR_MESSAGE,
            .execMessage channel_id DEFAULT_ERROR_MESSAGE])
    else
      .error ()

/-- `ErrorHandler::maybe_execute_webhook`: same pattern as the channel sink,
with `"\n\nFailed to execute webhook: <err>"` as the failure diagnostic. -/
def ErrorHandler.maybe_execute_webhook (self : ErrorHandler) (http : Client)
    (error_message : String) : Except Unit (String × List Event) :=
  match self.webhook with
  | none => .ok (error_message, [])
  | some (webhook_id, token) =>
    if http.validWebhookContent error_message then
      match http.sendWebhook webhook_id token error_message with
      | none =>
        .ok (error_message,
          [.contentWebhook error_message,
            .execWebhook webhook_id token error_message])
      | some err =>
        .ok (error_message ++ "\n\nFailed to execute webhook: " ++ err,
          [.contentWebhook error_message,
            .execWebhook webhook_id token error_message])
    else if http.validWebhookContent DEFAULT_ERROR_MESSAGE then
      match http.sendWebhook webhook_id token DEFAULT_ERROR_MESSAGE with
      | none =>
        .ok (error_message,
          [.contentWebhook error_message, .contentWebhook DEFAULT_ERROR_MESSAGE,
            .execWebhook webhook_id token DEFAULT_ERROR_MESSAGE])
      | some err =>
        .ok (error_message ++ "\n\nFailed to execute webhook: " ++ err,
          [.contentWebhook error_message, .contentWebhook DEFAULT_ERROR_MESSAGE,
            .execWebhook webhook_id token DEFAULT_ERROR_MESSAGE])
    else
      .error ()

/-- `ErrorHandler::maybe_append_error`: if a file is set, attempt to append
the current buffer bytes; on failure append
`"\n\nFailed to append to file: <err>"` to the buffer. No fallback retry. -/
def ErrorHandler.maybe_append_error (self : ErrorHandler) (fs : Fs)
    (error_message : String) : String × List Event :=
  match self.file with
  | none => (error_message, [])
  | some path =>
    match fs.append path error_message with
    | none => (error_message, [.fileWrite path error_message])
    | some err =>
      (error_message ++ "\n\nFailed to append to file: " ++ err,
        [.fileWrite path error_message])

/-- The state of one in-flight `handle` call: the handler taken by `&self`
and the mutable `error_message` buffer. -/
structure ReportState where
  handler : ErrorHandler
  buffer : String
deriving DecidableEq

/-- The body of `ErrorHandler::handle` as a transformer of `ReportState`:
channel sink, then webhook sink, then file sink, then the stderr print of the
final buffer, each step reading the configuration from `st.handler` and
passing the buffer along. -/
def handleSt (http : Client) (fs : Fs) (st : ReportState) :
    Except Unit (ReportState × List Event) :=
  match st.handler.maybe_create_message http st.buffer with
  | .error e => .error e
  | .ok (m1, e1) =>
    match st.handler.maybe_execute_webhook http m1 with
    | .error e => .error e
    | .ok (m2, e2) =>
      match st.handler.maybe_append_error fs m2 with
      | (m3, e3) =>
        .ok ({ handler := st.handler, buffer := m3 },
          e1 ++ e2 ++ e3 ++ [Event.stderrLine m3])

/-- `ErrorHandler::handle`: seed the buffer with `"\n\n" ++ error`
(`format!("\n\n{error}")`), run the three sinks in order, print the final
buffer to stderr. The result is the event trace, or `Except.error ()` for the
fallback-content panic. -/
def ErrorHandler.handle (self : ErrorHandler) (http : Client) (fs : Fs)
    (error : String) : Except Unit (List Event) :=
  match handleSt http fs { handler := self, buffer := "\n\n" ++ error } with
  | .error e => .error e
  | .ok (_, evs) => .ok evs

/-- The body of `ErrorHandler::handle_sync` on `ReportState`: only the
file-append step, then the stderr print. -/
def handleSyncSt (fs : Fs) (st : ReportState) : ReportState × List Event :=
  match st.handler.maybe_append_error fs st.buffer with
  | (m, e) => ({ handler := st.handler, buffer := m }, e ++ [Event.stderrLine m])

/-- `ErrorHandler::handle_sync`: handle an error ignoring the channel and
webhook sinks. -/
def ErrorHandler.handle_sync (self : ErrorHandler) (fs : Fs) (error : String) :
    List Event :=
  (handleSyncSt fs { handler := self, buffer := "\n\n" ++ error }).2

/-- A client for concrete scenarios: every content is valid and every
delivery succeeds. -/
def okClient : Client :=
  { validMessageContent := fun _ => true
    validWebhookContent := fun _ => true
    sendMessage := fun _ _ => none
    sendWebhook := fun _ _ _ => none }

/-- A client for concrete scenarios: every content is valid but every
delivery fails. -/
def failClient : Client :=
  { validMessageContent := fun _ => true
    validWebhookContent := fun _ => true
    sendMessage := fun _ _ => some "delivery error"
    sendWebhook := fun _ _ _ => some "delivery error" }

/-- A client for concrete scenarios: only the fixed fallback content passes
validation, message delivery succeeds, webhook delivery fails. -/
def strictClient : Client :=
  { validMessageContent := fun s => s == DEFAULT_ERROR_MESSAGE
    validWebhookContent := fun s => s == DEFAULT_ERROR_MESSAGE
    sendMessage := fun _ _ => none
    sendWebhook := fun _ _ _ => some "401" }

/-- A filesystem oracle whose append always succeeds. -/
def okFs : Fs := { append := fun _ _ => none }

/-- A filesystem oracle whose append always fails with a fixed IO error. -/
def failFs : Fs := { append := fun _ _ => some "permission denied" }

/-- A concrete configuration with all three sinks set. -/
def cfg3 : ErrorHandler :=
  ((ErrorHandler.new.setChannel 1).setWebhook 2 "tok").setFile "log"

/-- The trace of `cfg3.handle failClient failFs "boom"`: every sink is
attempted, each failure diagnostic is visible to everything attempted after
it, and stderr prints the fully extended buffer. -/
def trace3 : List Event :=
  [Event.contentMessage "\n\nboom",
   Event.execMessage 1 "\n\nboom",
   Event.contentWebhook "\n\nboom\n\nFailed to create message: delivery error",
   Event.execWebhook 2 "tok" "\n\nboom\n\nFailed to create message: delivery error",
   Event.fileWrite "log"
     "\n\nboom\n\nFailed to create message: delivery error\n\nFailed to execute webhook: delivery error",
   Event.stderrLine
     "\n\nboom\n\nFailed to create message: delivery error\n\nFailed to execute webhook: delivery error\n\nFailed to append to file: permission denied"]

/-- Characterization of a successful channel-sink step: the buffer only ever
grows by a suffix, all recorded events belong to the channel sink, a
configured channel is always executed and its primary content attempt is the
incoming buffer, and every content attempt is either the buffer or the fixed
fallback. -/
theorem create_message_ok_props (self : ErrorHandler) (http : Client)
    (m m' : String) (evs : List Event)
    (h : self.maybe_create_message http m = .ok (m', evs)) :
    (∃ t, m' = m ++ t)
    ∧ (∀ ev ∈ evs, ev.isChannelEvent = true)
    ∧ (∀ cid, self.channel = some cid →
        Event.contentMessage m ∈ evs ∧ ∃ c, Event.execMessage cid c ∈ evs)
    ∧ (∀ c, Event.contentMessage c ∈ evs → c = m ∨ c = DEFAULT_ERROR_MESSAGE)
    := by
  rcases hch : self.channel with _ | cid
  · simp only [ErrorHandler.maybe_create_message, hch, Except.ok.injEq,
      Prod.mk.injEq] at h
    obtain ⟨rfl, rfl⟩ := h
    refine ⟨⟨"", (String.append_empty m).symm⟩, by simp, ?_, by simp⟩
    intro cid hcid
    exact Option.noConfusion hcid
  · simp only [ErrorHandler.maybe_create_message, hch] at h
    split at h
    · split at h <;>
      · simp only [Except.ok.injEq, Prod.mk.injEq] at h
        obtain ⟨rfl, rfl⟩ := h
        refine ⟨?_, by simp [Event.isChannelEvent], ?_, ?_⟩
        · first
          | exact ⟨"", (String.append_empty m).symm⟩
          | exact ⟨_, String.append_assoc ..⟩
        · intro cid₂ hcid
          obtain rfl : cid = cid₂ := by simpa using hcid
          exact ⟨by simp, m, by simp⟩
        · intro c hc
          simp only [List.mem_cons, List.mem_singleton] at hc
          rcases hc with hc | hc | hc <;> simp_all
    · split at h
      · split at h <;>
        · simp only [Except.ok.injEq, Prod.mk.injEq] at h
          obtain ⟨rfl, rfl⟩ := h
          refine ⟨?_, by simp [Event.isChannelEvent], ?_, ?_⟩
          · first
            | exact ⟨"", (String.append_empty m).symm⟩
            | exact ⟨_, String.append_assoc ..⟩
          · intro cid₂ hcid
            obtain rfl : cid = cid₂ := by simpa using hcid
            exact ⟨by simp, DEFAULT_ERROR_MESSAGE, by simp⟩
          · intro c hc
            simp only [List.mem_cons, List.mem_singleton] at hc
            rcases hc with hc | hc | hc | hc <;> simp_all
      · exact absurd h (by simp)

/-- Characterization of a successful webhook-sink step, mirroring
`create_message_ok_props`. -/
theorem execute_webhook_ok_props (self : ErrorHandler) (http : Client)
    (m m' : String) (evs : List Event)
    (h : self.maybe_execute_webhook http m = .ok (m', evs)) :
    (∃ t, m' = m ++ t)
    ∧ (∀ ev ∈ evs, ev.isWebhookEvent = true)
    ∧ (∀ wid tok, self.webhook = some (wid, tok) →
        Event.contentWebhook m ∈ evs ∧ ∃ c, Event.execWebhook wid tok c ∈ evs)
    ∧ (∀ c, Event.contentWebhook c ∈ evs → c = m ∨ c = DEFAULT_ERROR_MESSAGE)
    := by
  rcases hwh : self.webhook with _ | ⟨wid, tok⟩
  · simp only [ErrorHandler.maybe_execute_webhook, hwh, Except.ok.injEq,
      Prod.mk.injEq] at h
    obtain ⟨rfl, rfl⟩ := h
    refine ⟨⟨"", (String.append_empty m).symm⟩, by simp, ?_, by simp⟩
    intro wid tok hwt
    exact Option.noConfusion hwt
  · simp only [ErrorHandler.maybe_execute_webhook, hwh] at h
    split at h
    · split at h <;>
      · simp only [Except.ok.injEq, Prod.mk.injEq] at h
        obtain ⟨rfl, rfl⟩ := h
        refine ⟨?_, by simp [Event.isWebhookEvent], ?_, ?_⟩
        · first
          | exact ⟨"", (String.append_empty m).symm⟩
          | exact ⟨_, String.append_assoc ..⟩
        · intro wid₂ tok₂ hwt
          obtain ⟨rfl, rfl⟩ : wid = wid₂ ∧ tok = tok₂ := by simpa using hwt
          exact ⟨by simp, m, by simp⟩
        · intro c hc
          simp only [List.mem_cons, List.mem_singleton] at hc
          rcases hc with hc | hc | hc <;> simp_all
    · split at h
      · split at h <;>
        · simp only [Except.ok.injEq, Prod.mk.injEq] at h
          obtain ⟨rfl, rfl⟩ := h
          refine ⟨?_, by simp [Event.isWebhookEvent], ?_, ?_⟩
          · first
            | exact ⟨"", (String.append_empty m).symm⟩
            | exact ⟨_, String.append_assoc ..⟩
          · intro wid₂ tok₂ hwt
            obtain ⟨rfl, rfl⟩ : wid = wid₂ ∧ tok = tok₂ := by simpa using hwt
            exact ⟨by simp, DEFAULT_ERROR_MESSAGE, by simp⟩
          · intro c hc
            simp only [List.mem_cons, List.mem_singleton] at hc
            rcases hc with hc | hc | hc | hc <;> simp_all
      · exact absurd h (by simp)

/-- Characterization of the file-sink step: the buffer only grows by a
suffix, every event is a file event, a configured file gets exactly one
append attempt carrying the incoming buffer bytes, and without a configured
file nothing happens. -/
theorem append_error_props (self : ErrorHandler) (fs : Fs) (m m' : String)
    (evs : List Event) (h : self.maybe_append_error fs m = (m', evs)) :
    (∃ t, m' = m ++ t)
    ∧ (∀ ev ∈ evs, ev.isFileEvent = true)
    ∧ (∀ path, self.file = some path → evs = [Event.fileWrite path m])
    ∧ (self.file = none → m' = m ∧ evs = []) := by
  rcases hf : self.file with _ | path
  · simp only [ErrorHandler.maybe_append_error, hf, Prod.mk.injEq] at h
    obtain ⟨rfl, rfl⟩ := h
    refine ⟨⟨"", (String.append_empty m).symm⟩, by simp, ?_, fun _ => ⟨rfl, rfl⟩⟩
    intro path hp
    exact Option.noConfusion hp
  · simp only [ErrorHandler.maybe_append_error, hf] at h
    split at h <;>
    · simp only [Prod.mk.injEq] at h
      obtain ⟨rfl, rfl⟩ := h
      refine ⟨?_, by simp [Event.isFileEvent], ?_, ?_⟩
      · first
        | exact ⟨"", (String.append_empty m).symm⟩
        | exact ⟨_, String.append_assoc ..⟩
      · intro path₂ hp
        obtain rfl : path = path₂ := by simpa using hp
        rfl
      · intro hp
        exact Option.noConfusion hp

/-- A successful `handle` call decomposes into the channel step on the seeded
buffer, the webhook step on the channel step's buffer, the file step on the
webhook step's buffer, and a final stderr print of the file step's buffer,
with the traces concatenated in that order. -/
theorem handle_ok_decomp (self : ErrorHandler) (http : Client) (fs : Fs)
    (error : String) (evs : List Event)
    (h : self.handle http fs error = .ok evs) :
    ∃ m₁ m₂ m₃ e₁ e₂ e₃,
      self.maybe_create_message http ("\n\n" ++ error) = .ok (m₁, e₁)
      ∧ self.maybe_execute_webhook http m₁ = .ok (m₂, e₂)
      ∧ self.maybe_append_error fs m₂ = (m₃, e₃)
      ∧ evs = e₁ ++ e₂ ++ e₃ ++ [Event.stderrLine m₃] := by
  cases h₁ : self.maybe_create_message http ("\n\n" ++ error) with
  | error e =>
    rw [ErrorHandler.handle, handleSt] at h
    simp only [h₁] at h
    exact absurd h (by simp)
  | ok p₁ =>
    obtain ⟨m₁, e₁⟩ := p₁
    cases h₂ : self.maybe_execute_webhook http m₁ with
    | error e =>
      rw [ErrorHandler.handle, handleSt] at h
      simp only [h₁, h₂] at h
      exact absurd h (by simp)
    | ok p₂ =>
      obtain ⟨m₂, e₂⟩ := p₂
      rcases h₃ : self.maybe_append_error fs m₂ with ⟨m₃, e₃⟩
      rw [ErrorHandler.handle, handleSt] at h
      simp only [h₁, h₂, h₃, Except.ok.injEq] at h
      exact ⟨m₁, m₂, m₃, e₁, e₂, e₃, rfl, h₂, h₃, h.symm⟩

/-- C2: whenever `handle` completes, the sinks were attempted in the fixed
order channel, webhook, file, stderr (the trace is the concatenation of the
three sink traces followed by the stderr print, each segment containing only
its own sink's events); every configured sink was attempted regardless of
the other sinks' failures; each sink's buffer extends the previous one by a
suffix, the webhook's primary content attempt is exactly the buffer left by
the channel step, the file write carries exactly the buffer left by the
webhook step, and stderr prints the final buffer — so an earlier failure's
diagnostic is part of everything attempted later, while channel contents are
drawn only from the seeded buffer (and the fixed fallback) and webhook
contents only from the buffer left by the channel step, so a later sink's
diagnostic never reaches an earlier sink's content. -/
theorem handle_order_independence (self : ErrorHandler) (http : Client)
    (fs : Fs) (error : String) (evs : List Event)
    (h : self.handle http fs error = .ok evs) :
    ∃ m₁ m₂ m₃ e₁ e₂ e₃,
      self.maybe_create_message http ("\n\n" ++ error) = .ok (m₁, e₁)
      ∧ self.maybe_execute_webhook http m₁ = .ok (m₂, e₂)
      ∧ self.maybe_append_error fs m₂ = (m₃, e₃)
      ∧ evs = e₁ ++ e₂ ++ e₃ ++ [Event.stderrLine m₃]
      ∧ (∀ ev ∈ e₁, ev.isChannelEvent = true)
      ∧ (∀ ev ∈ e₂, ev.isWebhookEvent = true)
      ∧ (∀ ev ∈ e₃, ev.isFileEvent = true)
      ∧ (∃ t, m₁ = ("\n\n" ++ error) ++ t)
      ∧ (∃ t, m₂ = m₁ ++ t)
      ∧ (∃ t, m₃ = m₂ ++ t)
      ∧ (∀ cid, self.channel = some cid →
          Event.contentMessage ("\n\n" ++ error) ∈ e₁
          ∧ ∃ c, Event.execMessage cid c ∈ e₁)
      ∧ (∀ wid tok, self.webhook = some (wid, tok) →
          Event.contentWebhook m₁ ∈ e₂ ∧ ∃ c, Event.execWebhook wid tok c ∈ e₂)
      ∧ (∀ path, self.file = some path → e₃ = [Event.fileWrite path m₂])
      ∧ (∀ c, Event.contentMessage c ∈ e₁ →
          c = ("\n\n" ++ error) ∨ c = DEFAULT_ERROR_MESSAGE)
      ∧ (∀ c, Event.contentWebhook c ∈ e₂ →
          c = m₁ ∨ c = DEFAULT_ERROR_MESSAGE) := by
  obtain ⟨m₁, m₂, m₃, e₁, e₂, e₃, h₁, h₂, h₃, hevs⟩ :=
    handle_ok_decomp self http fs error evs h
  obtain ⟨hs₁, hk₁, ha₁, hc₁⟩ := create_message_ok_props self http _ m₁ e₁ h₁
  obtain ⟨hs₂, hk₂, ha₂, hc₂⟩ := execute_webhook_ok_props self http m₁ m₂ e₂ h₂
  obtain ⟨hs₃, hk₃, ha₃, -⟩ := append_error_props self fs m₂ m₃ e₃ h₃
  exact ⟨m₁, m₂, m₃, e₁, e₂, e₃, h₁, h₂, h₃, hevs, hk₁, hk₂, hk₃, hs₁, hs₂,
    hs₃, ha₁, ha₂, ha₃, hc₁, hc₂⟩

/-- If the fixed fallback is valid message content, the channel step cannot
hit the `unwrap` panic. -/
theorem create_message_isOk (self : ErrorHandler) (http : Client) (m : String)
    (hd : http.validMessageContent DEFAULT_ERROR_MESSAGE = true) :
    ∃ r, self.maybe_create_message http m = .ok r := by
  rcases hch : self.channel with _ | cid
  · exact ⟨(m, []), by simp [ErrorHandler.maybe_create_message, hch]⟩
  · simp only [ErrorHandler.maybe_create_message, hch]
    split
    · split <;> exact ⟨_, rfl⟩
    · split <;> exact ⟨_, rfl⟩

/-- If the fixed fallback is valid webhook content, the webhook step cannot
hit the `unwrap` panic. -/
theorem execute_webhook_isOk (self : ErrorHandler) (http : Client) (m : String)
    (hd : http.validWebhookContent DEFAULT_ERROR_MESSAGE = true) :
    ∃ r, self.maybe_execute_webhook http m = .ok r := by
  rcases hwh : self.webhook with _ | ⟨wid, tok⟩
  · exact ⟨(m, []), by simp [ErrorHandler.maybe_execute_webhook, hwh]⟩
  · simp only [ErrorHandler.maybe_execute_webhook, hwh]
    split
    · split <;> exact ⟨_, rfl⟩
    · split <;> exact ⟨_, rfl⟩

/-- C1: `handle` never surfaces a failure to its caller. Channel, webhook
and file failures are absorbed into the buffer, and as long as the fixed
fallback content is valid for both transports, the only abort (the `unwrap`
panic on invalid fallback content, `Except.error ()`) cannot occur: for
every configuration, client behaviour, filesystem behaviour and error value
the dispatch completes with an event trace. -/
theorem handle_never_fails_when_fallback_valid (self : ErrorHandler)
    (http : Client) (fs : Fs) (error : String)
    (hm : http.validMessageContent DEFAULT_ERROR_MESSAGE = true)
    (hw : http.validWebhookContent DEFAULT_ERROR_MESSAGE = true) :
    ∃ evs, self.handle http fs error = .ok evs := by
  obtain ⟨⟨m₁, e₁⟩, h₁⟩ := create_message_isOk self http ("\n\n" ++ error) hm
  obtain ⟨⟨m₂, e₂⟩, h₂⟩ := execute_webhook_isOk self http m₁ hw
  rcases h₃ : self.maybe_append_error fs m₂ with ⟨m₃, e₃⟩
  exact ⟨e₁ ++ e₂ ++ e₃ ++ [Event.stderrLine m₃],
    by rw [ErrorHandler.handle, handleSt]; simp only [h₁, h₂, h₃]⟩

/-- The four event kinds are mutually exclusive. -/
theorem event_kind_exclusive (ev : Event) :
    (ev.isChannelEvent = true →
      ev.isWebhookEvent = false ∧ ev.isFileEvent = false
      ∧ ev.isStderrEvent = false)
    ∧ (ev.isWebhookEvent = true →
      ev.isFileEvent = false ∧ ev.isStderrEvent = false)
    ∧ (ev.isFileEvent = true → ev.isStderrEvent = false) := by
  cases ev <;>
    simp [Event.isChannelEvent, Event.isWebhookEvent, Event.isFileEvent,
      Event.isStderrEvent]

/-- C4: with zero sinks configured, `handle` produces exactly one event, the
stderr print of `"\n\n" ++ error`, and no channel, webhook or file attempt. -/
theorem handle_no_sinks (self : ErrorHandler) (http : Client) (fs : Fs)
    (error : String) (hc : self.channel = none) (hw : self.webhook = none)
    (hf : self.file = none) :
    self.handle http fs error = .ok [Event.stderrLine ("\n\n" ++ error)] := by
  simp [ErrorHandler.handle, handleSt, ErrorHandler.maybe_create_message,
    ErrorHandler.maybe_execute_webhook, ErrorHandler.maybe_append_error,
    hc, hw, hf]

/-- Amended C6: with only a file sink configured, `handle` makes exactly one
append attempt, carrying exactly the buffer bytes `"\n\n" ++ error` (never
the fallback content, and never the file diagnostic — nothing further is
handed to the file on failure), and prints to stderr the final buffer: the
same bytes on success, or the bytes extended by
`"\n\nFailed to append to file: <err>"` on failure. -/
theorem handle_file_only (self : ErrorHandler) (http : Client) (fs : Fs)
    (error path : String) (hc : self.channel = none) (hw : self.webhook = none)
    (hf : self.file = some path) :
    self.handle http fs error =
      .ok [Event.fileWrite path ("\n\n" ++ error),
        Event.stderrLine
          (match fs.append path ("\n\n" ++ error) with
           | none => "\n\n" ++ error
           | some err =>
               ("\n\n" ++ error) ++ "\n\nFailed to append to file: " ++ err)] := by
  cases hap : fs.append path ("\n\n" ++ error) <;>
    simp [ErrorHandler.handle, handleSt, ErrorHandler.maybe_create_message,
      ErrorHandler.maybe_execute_webhook, ErrorHandler.maybe_append_error,
      hc, hw, hf, hap]

/-- C5: `handle_sync` never produces a channel or webhook event, whatever
the configuration; it performs only the file-append step (exactly one append
attempt when a file is configured, nothing otherwise) and always ends with
the stderr print of the final buffer. -/
theorem handle_sync_no_network (self : ErrorHandler) (fs : Fs)
    (error : String) :
    (∀ ev ∈ self.handle_sync fs error,
      ev.isChannelEvent = false ∧ ev.isWebhookEvent = false)
    ∧ (self.file = none →
        self.handle_sync fs error = [Event.stderrLine ("\n\n" ++ error)])
    ∧ (∀ path, self.file = some path →
        self.handle_sync fs error =
          [Event.fileWrite path ("\n\n" ++ error),
           Event.stderrLine
             (match fs.append path ("\n\n" ++ error) with
              | none => "\n\n" ++ error
              | some err =>
                  ("\n\n" ++ error) ++ "\n\nFailed to append to file: " ++ err)]) := by
  rcases hf : self.file with _ | path
  · have hs : self.handle_sync fs error = [Event.stderrLine ("\n\n" ++ error)] := by
      simp [ErrorHandler.handle_sync, handleSyncSt,
        ErrorHandler.maybe_append_error, hf]
    refine ⟨?_, fun _ => hs, ?_⟩
    · rw [hs]
      simp [Event.isChannelEvent, Event.isWebhookEvent]
    · intro path hp
      exact absurd hp (by simp)
  · have hs : self.handle_sync fs error =
        [Event.fileWrite path ("\n\n" ++ error),
         Event.stderrLine
           (match fs.append path ("\n\n" ++ error) with
            | none => "\n\n" ++ error
            | some err =>
                ("\n\n" ++ error) ++ "\n\nFailed to append to file: " ++ err)] := by
      cases hap : fs.append path ("\n\n" ++ error) <;>
        simp [ErrorHandler.handle_sync, handleSyncSt,
          ErrorHandler.maybe_append_error, hf, hap]
    refine ⟨?_, ?_, ?_⟩
    · rw [hs]
      simp [Event.isChannelEvent, Event.isWebhookEvent]
    · intro hp
      exact absurd hp (by simp)
    · intro path₂ hp
      obtain rfl : path = path₂ := by simpa using hp
      exact hs

/-- C7: setter algebra. Calling the file setter twice keeps only the last
path; each setter leaves the other two sinks' configuration unchanged; and
the chained configuration (each setter returning the handle for chaining)
sets exactly the three requested targets. -/
theorem setter_last_wins_frame (s : ErrorHandler) (p₁ p₂ : String)
    (c : ChannelId) (w : WebhookId) (t : String) :
    (s.setFile p₁).setFile p₂ = s.setFile p₂
    ∧ (s.setFile p₂).channel = s.channel
    ∧ (s.setFile p₂).webhook = s.webhook
    ∧ (s.setChannel c).webhook = s.webhook
    ∧ (s.setChannel c).file = s.file
    ∧ (s.setWebhook w t).channel = s.channel
    ∧ (s.setWebhook w t).file = s.file
    ∧ ((ErrorHandler.new.setChannel c).setWebhook w t).setFile p₁ =
        { channel := some c, webhook := some (w, t), file := some p₁ } :=
  ⟨rfl, rfl, rfl, rfl, rfl, rfl, rfl, rfl⟩

/-- Amended C8: the channel setter takes only a channel identifier and
stores exactly it as the channel target, leaving the rest of the
configuration unchanged; no client handle is part of the stored target. -/
theorem setChannel_stores_id_only (s : ErrorHandler) (c : ChannelId) :
    (s.setChannel c).channel = some c
    ∧ (s.setChannel c).webhook = s.webhook
    ∧ (s.setChannel c).file = s.file :=
  ⟨rfl, rfl, rfl⟩

/-- C9: dispatch mutates only the per-call message buffer. Both the `handle`
body and the `handle_sync` body, as transformers of the per-call
`ReportState`, leave the handler's configuration component untouched. -/
theorem dispatch_preserves_config (http : Client) (fs : Fs)
    (st st₂ : ReportState) (evs : List Event) :
    (handleSt http fs st = .ok (st₂, evs) → st₂.handler = st.handler)
    ∧ (handleSyncSt fs st).1.handler = st.handler := by
  constructor
  · intro h
    cases h₁ : st.handler.maybe_create_message http st.buffer with
    | error e =>
      rw [handleSt] at h
      simp only [h₁] at h
      exact absurd h (by simp)
    | ok p₁ =>
      obtain ⟨m₁, e₁⟩ := p₁
      cases h₂ : st.handler.maybe_execute_webhook http m₁ with
      | error e =>
        rw [handleSt] at h
        simp only [h₁, h₂] at h
        exact absurd h (by simp)
      | ok p₂ =>
        obtain ⟨m₂, e₂⟩ := p₂
        rcases h₃ : st.handler.maybe_append_error fs m₂ with ⟨m₃, e₃⟩
        rw [handleSt] at h
        simp only [h₁, h₂, h₃, Except.ok.injEq, Prod.mk.injEq] at h
        obtain ⟨h', -⟩ := h
        rw [← h']
  · rcases h : st.handler.maybe_append_error fs st.buffer with ⟨m, e⟩
    simp [handleSyncSt, h]

/-- C10: with a file sink configured, a completed `handle` makes exactly one
append attempt; the bytes handed to it are the buffer as it stood before the
file step, so the file sink's own failure diagnostic is never part of them —
it is appended only after the failed attempt and surfaces only in the single
stderr line, which carries the same bytes on success and the bytes extended
by `"\n\nFailed to append to file: <err>"` on failure. -/
theorem file_write_excludes_own_diag (self : ErrorHandler) (http : Client)
    (fs : Fs) (error path : String) (evs : List Event)
    (hf : self.file = some path) (h : self.handle http fs error = .ok evs) :
    ∃ m₂,
      evs.filter Event.isFileEvent = [Event.fileWrite path m₂]
      ∧ (match fs.append path m₂ with
         | none => evs.filter Event.isStderrEvent = [Event.stderrLine m₂]
         | some err =>
             evs.filter Event.isStderrEvent =
               [Event.stderrLine (m₂ ++ "\n\nFailed to append to file: " ++ err)]) := by
  obtain ⟨m₁, m₂, m₃, e₁, e₂, e₃, h₁, h₂, h₃, hevs⟩ :=
    handle_ok_decomp self http fs error evs h
  obtain ⟨-, hk₁, -, -⟩ := create_message_ok_props self http _ m₁ e₁ h₁
  obtain ⟨-, hk₂, -, -⟩ := execute_webhook_ok_props self http m₁ m₂ e₂ h₂
  have f₁ : e₁.filter Event.isFileEvent = [] :=
    List.filter_eq_nil_iff.mpr fun ev hev => by
      simp [((event_kind_exclusive ev).1 (hk₁ ev hev)).2.1]
  have f₂ : e₂.filter Event.isFileEvent = [] :=
    List.filter_eq_nil_iff.mpr fun ev hev => by
      simp [((event_kind_exclusive ev).2.1 (hk₂ ev hev)).1]
  have s₁ : e₁.filter Event.isStderrEvent = [] :=
    List.filter_eq_nil_iff.mpr fun ev hev => by
      simp [((event_kind_exclusive ev).1 (hk₁ ev hev)).2.2]
  have s₂ : e₂.filter Event.isStderrEvent = [] :=
    List.filter_eq_nil_iff.mpr fun ev hev => by
      simp [((event_kind_exclusive ev).2.1 (hk₂ ev hev)).2]
  simp only [ErrorHandler.maybe_append_error, hf] at h₃
  refine ⟨m₂, ?_⟩
  cases hap : fs.append path m₂ <;> rw [hap] at h₃ <;>
    simp only [Prod.mk.injEq] at h₃ <;>
    obtain ⟨hm₃, he₃⟩ := h₃ <;>
    subst hevs <;>
    rw [← hm₃, ← he₃] <;>
    constructor <;>
    simp [List.filter_append, f₁, f₂, s₁, s₂, Event.isFileEvent,
      Event.isStderrEvent]

/-- C3: when content validation rejects the primary attempt of a configured
channel or webhook sink but accepts the fixed fallback, exactly one second
content attempt is made, with exactly `DEFAULT_ERROR_MESSAGE` as content,
and the request is executed with that fallback content; if that execution
fails with a delivery error, the failure is reported by appending the sink's
diagnostic to the buffer. -/
theorem fallback_second_attempt (self : ErrorHandler) (http : Client)
    (m : String) :
    (∀ cid, self.channel = some cid →
      http.validMessageContent m = false →
      http.validMessageContent DEFAULT_ERROR_MESSAGE = true →
      self.maybe_create_message http m = .ok
        ((match http.sendMessage cid DEFAULT_ERROR_MESSAGE with
          | none => m
          | some err => m ++ "\n\nFailed to create message: " ++ err),
         [Event.contentMessage m, Event.contentMessage DEFAULT_ERROR_MESSAGE,
          Event.execMessage cid DEFAULT_ERROR_MESSAGE]))
    ∧ (∀ wid tok, self.webhook = some (wid, tok) →
      http.validWebhookContent m = false →
      http.validWebhookContent DEFAULT_ERROR_MESSAGE = true →
      self.maybe_execute_webhook http m = .ok
        ((match http.sendWebhook wid tok DEFAULT_ERROR_MESSAGE with
          | none => m
          | some err => m ++ "\n\nFailed to execute webhook: " ++ err),
         [Event.contentWebhook m, Event.contentWebhook DEFAULT_ERROR_MESSAGE,
          Event.execWebhook wid tok DEFAULT_ERROR_MESSAGE])) := by
  constructor
  · intro cid hch hval hd
    simp only [ErrorHandler.maybe_create_message, hch, hval, hd,
      Bool.false_eq_true, if_false, if_true]
    cases hs : http.sendMessage cid DEFAULT_ERROR_MESSAGE <;> simp [hs]
  · intro wid tok hwh hval hd
    simp only [ErrorHandler.maybe_execute_webhook, hwh, hval, hd,
      Bool.false_eq_true, if_false, if_true]
    cases hs : http.sendWebhook wid tok DEFAULT_ERROR_MESSAGE <;> simp [hs]

/-- Counterexample to C6 as stated: with only a file sink configured and an
append that fails, the only bytes ever handed to the file are the plain
buffer `"\n\n" ++ error`; the buffer extended with the failure diagnostic is
never appended to the file — it appears only in the stderr line. -/
theorem file_only_diag_not_appended_cex :
    (ErrorHandler.new.setFile "errs.log").handle okClient failFs "disk full" =
      .ok [Event.fileWrite "errs.log" "\n\ndisk full",
        Event.stderrLine
          "\n\ndisk full\n\nFailed to append to file: permission denied"]
    ∧ Event.fileWrite "errs.log"
        "\n\ndisk full\n\nFailed to append to file: permission denied" ∉
      [Event.fileWrite "errs.log" "\n\ndisk full",
        Event.stderrLine
          "\n\ndisk full\n\nFailed to append to file: permission denied"] := by
  constructor
  · decide
  · decide

/-- Counterexample to C8 as stated: the channel setter stores only the
channel identifier — the resulting handler state is exactly the identifier
with the other sinks untouched, and no client handle is part of it: the
client is a per-`handle` argument, and the same configured handler behaves
differently under two clients that differ only in delivery behaviour. -/
theorem setChannel_no_stored_client_cex :
    ErrorHandler.new.setChannel 1 =
      { channel := some 1, webhook := none, file := none }
    ∧ (ErrorHandler.new.setChannel 1).handle okClient okFs "oops" ≠
        (ErrorHandler.new.setChannel 1).handle failClient okFs "oops" := by
  constructor
  · rfl
  · decide

/-- Witness for C1: with all three sinks configured, every delivery and the
file append failing, and the fallback valid for both transports, `handle`
still completes. -/
theorem handle_never_fails_when_fallback_valid_witness :
    failClient.validMessageContent DEFAULT_ERROR_MESSAGE = true
    ∧ failClient.validWebhookContent DEFAULT_ERROR_MESSAGE = true
    ∧ ∃ evs, cfg3.handle failClient failFs "boom" = .ok evs :=
  ⟨rfl, rfl,
    handle_never_fails_when_fallback_valid cfg3 failClient failFs "boom" rfl rfl⟩

/-- Witness for C2: the all-sinks configuration under failing deliveries and
a failing append produces exactly `trace3`, and the ordering and
independence decomposition holds for it. -/
theorem handle_order_independence_witness :
    cfg3.handle failClient failFs "boom" = .ok trace3
    ∧ ∃ m₁ m₂ m₃ e₁ e₂ e₃,
        cfg3.maybe_create_message failClient ("\n\n" ++ "boom") = .ok (m₁, e₁)
        ∧ cfg3.maybe_execute_webhook failClient m₁ = .ok (m₂, e₂)
        ∧ cfg3.maybe_append_error failFs m₂ = (m₃, e₃)
        ∧ trace3 = e₁ ++ e₂ ++ e₃ ++ [Event.stderrLine m₃]
        ∧ (∀ ev ∈ e₁, ev.isChannelEvent = true)
        ∧ (∀ ev ∈ e₂, ev.isWebhookEvent = true)
        ∧ (∀ ev ∈ e₃, ev.isFileEvent = true)
        ∧ (∃ t, m₁ = ("\n\n" ++ "boom") ++ t)
        ∧ (∃ t, m₂ = m₁ ++ t)
        ∧ (∃ t, m₃ = m₂ ++ t)
        ∧ (∀ cid, cfg3.channel = some cid →
            Event.contentMessage ("\n\n" ++ "boom") ∈ e₁
            ∧ ∃ c, Event.execMessage cid c ∈ e₁)
        ∧ (∀ wid tok, cfg3.webhook = some (wid, tok) →
            Event.contentWebhook m₁ ∈ e₂ ∧ ∃ c, Event.execWebhook wid tok c ∈ e₂)
        ∧ (∀ path, cfg3.file = some path → e₃ = [Event.fileWrite path m₂])
        ∧ (∀ c, Event.contentMessage c ∈ e₁ →
            c = ("\n\n" ++ "boom") ∨ c = DEFAULT_ERROR_MESSAGE)
        ∧ (∀ c, Event.contentWebhook c ∈ e₂ →
            c = m₁ ∨ c = DEFAULT_ERROR_MESSAGE) :=
  ⟨by decide,
    handle_order_independence cfg3 failClient failFs "boom" trace3 (by decide)⟩

/-- Witness for C3: under a client that validates only the fallback content,
a long buffer triggers exactly one fallback retry on each sink; the webhook
delivery failure is appended as a diagnostic. -/
theorem fallback_second_attempt_witness :
    strictClient.validMessageContent "\n\nboom" = false
    ∧ strictClient.validMessageContent DEFAULT_ERROR_MESSAGE = true
    ∧ (ErrorHandler.new.setChannel 1).maybe_create_message strictClient
        "\n\nboom" = .ok
        ("\n\nboom",
         [Event.contentMessage "\n\nboom",
          Event.contentMessage DEFAULT_ERROR_MESSAGE,
          Event.execMessage 1 DEFAULT_ERROR_MESSAGE])
    ∧ (ErrorHandler.new.setWebhook 2 "tok").maybe_execute_webhook strictClient
        "\n\nboom" = .ok
        ("\n\nboom" ++ "\n\nFailed to execute webhook: " ++ "401",
         [Event.contentWebhook "\n\nboom",
          Event.contentWebhook DEFAULT_ERROR_MESSAGE,
          Event.execWebhook 2 "tok" DEFAULT_ERROR_MESSAGE]) := by
  refine ⟨by decide, by decide, ?_, ?_⟩
  · have h := (fallback_second_attempt (ErrorHandler.new.setChannel 1)
      strictClient "\n\nboom").1 1 rfl (by decide) (by decide)
    simpa using h
  · have h := (fallback_second_attempt (ErrorHandler.new.setWebhook 2 "tok")
      strictClient "\n\nboom").2 2 "tok" rfl (by decide) (by decide)
    simpa using h

/-- Witness for C4: the freshly constructed handler reports to stderr only. -/
theorem handle_no_sinks_witness :
    ErrorHandler.new.channel = none
    ∧ ErrorHandler.new.webhook = none
    ∧ ErrorHandler.new.file = none
    ∧ ErrorHandler.new.handle okClient okFs "disk full" =
        .ok [Event.stderrLine ("\n\n" ++ "disk full")] :=
  ⟨rfl, rfl, rfl,
    handle_no_sinks ErrorHandler.new okClient okFs "disk full" rfl rfl rfl⟩

/-- Witness for C5: `handle_sync` on a file-only handler with a succeeding
filesystem performs exactly the append and the stderr print. -/
theorem handle_sync_no_network_witness :
    (ErrorHandler.new.setFile "errs.log").file = some "errs.log"
    ∧ (ErrorHandler.new.setFile "errs.log").handle_sync okFs "disk full" =
        [Event.fileWrite "errs.log" ("\n\n" ++ "disk full"),
         Event.stderrLine
           (match okFs.append "errs.log" ("\n\n" ++ "disk full") with
            | none => "\n\n" ++ "disk full"
            | some err =>
                ("\n\n" ++ "disk full") ++ "\n\nFailed to append to file: "
                  ++ err)] :=
  ⟨rfl,
    (handle_sync_no_network (ErrorHandler.new.setFile "errs.log") okFs
      "disk full").2.2 "errs.log" rfl⟩

/-- Witness for the amended C6: a file-only handler under a succeeding
filesystem appends the buffer and prints the same buffer to stderr. -/
theorem handle_file_only_witness :
    (ErrorHandler.new.setFile "errs.log").channel = none
    ∧ (ErrorHandler.new.setFile "errs.log").webhook = none
    ∧ (ErrorHandler.new.setFile "errs.log").file = some "errs.log"
    ∧ (ErrorHandler.new.setFile "errs.log").handle okClient okFs "disk full" =
        .ok [Event.fileWrite "errs.log" ("\n\n" ++ "disk full"),
          Event.stderrLine
            (match okFs.append "errs.log" ("\n\n" ++ "disk full") with
             | none => "\n\n" ++ "disk full"
             | some err =>
                 ("\n\n" ++ "disk full") ++ "\n\nFailed to append to file: "
                   ++ err)] :=
  ⟨rfl, rfl, rfl,
    handle_file_only (ErrorHandler.new.setFile "errs.log") okClient okFs
      "disk full" "errs.log" rfl rfl rfl⟩

/-- Witness for C9: a dispatch that does change the buffer (the append
fails, extending it with the diagnostic) still returns a state whose handler
component is the input one. -/
theorem dispatch_preserves_config_witness :
    (ReportState.mk (ErrorHandler.new.setFile "log")
        ("\n\nboom" ++ "\n\nFailed to append to file: " ++ "permission denied")).handler
      = (ReportState.mk (ErrorHandler.new.setFile "log") "\n\nboom").handler :=
  (dispatch_preserves_config okClient failFs
    (ReportState.mk (ErrorHandler.new.setFile "log") "\n\nboom")
    (ReportState.mk (ErrorHandler.new.setFile "log")
      ("\n\nboom" ++ "\n\nFailed to append to file: " ++ "permission denied"))
    [Event.fileWrite "log" "\n\nboom",
     Event.stderrLine
       ("\n\nboom" ++ "\n\nFailed to append to file: " ++ "permission denied")]).1
    (by decide)

/-- Witness for C10: in the failing-append scenario the single file write
carries the pre-diagnostic buffer and only the stderr line carries the
diagnostic. -/
theorem file_write_excludes_own_diag_witness :
    ∃ m₂,
      List.filter Event.isFileEvent
          [Event.fileWrite "errs.log" "\n\ndisk full",
           Event.stderrLine
             "\n\ndisk full\n\nFailed to append to file: permission denied"]
        = [Event.fileWrite "errs.log" m₂]
      ∧ (match failFs.append "errs.log" m₂ with
         | none =>
             List.filter Event.isStderrEvent
                 [Event.fileWrite "errs.log" "\n\ndisk full",
                  Event.stderrLine
                    "\n\ndisk full\n\nFailed to append to file: permission denied"]
               = [Event.stderrLine m₂]
         | some err =>
             List.filter Event.isStderrEvent
                 [Event.fileWrite "errs.log" "\n\ndisk full",
                  Event.stderrLine
                    "\n\ndisk full\n\nFailed to append to file: permission denied"]
               = [Event.stderrLine
                   (m₂ ++ "\n\nFailed to append to file: " ++ err)]) :=
  file_write_excludes_own_diag (ErrorHandler.new.setFile "errs.log") okClient
    failFs "disk full" "errs.log"
    [Event.fileWrite "errs.log" "\n\ndisk full",
     Event.stderrLine
       "\n\ndisk full\n\nFailed to append to file: permission denied"]
    rfl (by decide)

end TwilightError
